import Mathlib

/-!
Verification of the assessment-status polling page
(`frontend` AssessmentPage component and its helpers).

The embedding follows the TypeScript/React source closely:

* JavaScript values that may be `null`/`undefined` are modelled as
  `Option`; `none` stands for a nullish value, `some ""` is the (truthy
  for objects, falsy for strings) empty string, which JavaScript's `??`
  operator does NOT treat as nullish.
* The per-side result mapping (`AssessmentResultMap`, an open
  string-keyed object) is modelled as an association list
  `List (String × Option SideAssessment)`; `Object.entries` iteration
  corresponds to list traversal, and a JavaScript object has no
  duplicate keys.
* React state (`useState` values) and refs (`useRef` cells) together
  form the session state; an `async` fetch callback is modelled as a
  pure state transformer applied when the fetch outcome is delivered.
  The early `if (!isMountedRef.current) return` guards become the
  `isMounted` test at the head of each delivery function.
-/

/-- The five assessment statuses of `types.ts` (`AssessmentStatus`). -/
inductive AssessmentStatus where
  | pending
  | in_progress
  | complete
  | failed
  | not_found
deriving DecidableEq, Repr

/-- `SideAssessment` of `types.ts`: the raw per-side payload. The source
declares `pickup_image`/`return_image` as required strings, but the map is
loosely shaped at runtime (open string keys, server-provided JSON), so each
image reference is modelled as a possibly-absent string; the auxiliary
`result` bag is opaque to this core and not modelled. -/
structure SideAssessment where
  pickup_image : Option String
  return_image : Option String
  annotated_return_image : Option String
deriving DecidableEq, Repr

/-- `AssessmentDisplayResult` of `types.ts`: the normalized per-side form.
`Option` captures that the source can store an `undefined` field at runtime
when the raw entry lacks an image reference. -/
structure AssessmentDisplayResult where
  pickupUrl : Option String
  resultUrl : Option String
deriving DecidableEq, Repr

/-- The raw result mapping `AssessmentResultMap`: open string side keys to
possibly-`undefined` side payloads. -/
abbrev RawResults := List (String × Option SideAssessment)

/-- The normalized `ResultsState` mapping. -/
abbrev ResultsState := List (String × AssessmentDisplayResult)

/-- Loop body of `normalizeResults`: `if (!sideData) continue;` skips only a
nullish entry (a present object is always truthy in JavaScript); otherwise the
entry becomes `{ pickupUrl: sideData.pickup_image, resultUrl:
sideData.annotated_return_image ?? sideData.return_image }`, where `??` falls
back only on nullish values (an empty string is kept). -/
def normalizeSide : Option SideAssessment → Option AssessmentDisplayResult
  | none => none
  | some d =>
      some { pickupUrl := d.pickup_image
             resultUrl :=
               match d.annotated_return_image with
               | some v => some v
               | none => d.return_image }

/-- `normalizeResults` of the page source: `null` input yields the empty
mapping; otherwise each present side entry is normalized and collected. -/
def normalizeResults : Option RawResults → ResultsState
  | none => []
  | some rs => rs.filterMap fun p => (normalizeSide p.2).map fun e => (p.1, e)

/-- `POLL_INTERVAL_MS = 5000` from the page source. -/
def POLL_INTERVAL_MS : Nat := 5000

/-- `isTerminal`: membership in `['complete', 'failed', 'not_found']`. -/
def isTerminal : AssessmentStatus → Bool
  | .complete => true
  | .failed => true
  | .not_found => true
  | _ => false

/-- `shouldContinuePolling` of the page source: `if (!currentStatus) return
true; return !['complete','failed','not_found'].includes(currentStatus)`. -/
def shouldContinuePolling : Option AssessmentStatus → Bool
  | none => true
  | some st => !(isTerminal st)

/-- The per-session observable state: the `useState` values (`status`,
`results`, `summary`, `isPolling`, `error`, `isInitialLoading`) together with
the refs (`lastStatusRef`, `pollTimerRef`, `isMountedRef`). -/
structure SessionState where
  status : Option AssessmentStatus
  results : ResultsState
  summary : Option String
  isPolling : Bool
  error : Option String
  isInitialLoading : Bool
  lastStatusRef : Option AssessmentStatus
  pollTimerRef : Option Nat
  isMounted : Bool
deriving DecidableEq, Repr

/-- The initial state on mount: all `useState`/`useRef` initializers of the
component. -/
def initialState : SessionState :=
  { status := none
    results := []
    summary := none
    isPolling := false
    error := none
    isInitialLoading := true
    lastStatusRef := none
    pollTimerRef := none
    isMounted := true }

/-- The success-path commit condition of `fetchAssessmentStatus`:
`status !== lastStatusRef.current || isInitialLoading`. -/
def commitOk (s : SessionState) (st : AssessmentStatus) : Bool :=
  (some st ≠ s.lastStatusRef : Bool) || s.isInitialLoading

/-- JavaScript truthiness of a nullable string: `if (summary)` is taken
exactly when the string is present and non-empty. -/
def strTruthy : Option String → Bool
  | none => false
  | some str => str ≠ ""

/-- Success path of `fetchAssessmentStatus` (delivery of a resolved 2xx
response carrying `status`, `results`, `summary`):

* `if (!isMountedRef.current) return;`
* commit block guarded by `status !== lastStatusRef.current ||
  isInitialLoading`: set `status` and `lastStatusRef`; `if (results)`
  (truthy, i.e. non-null — an empty object is truthy) replace `results`
  with `normalizeResults(results)`; `if (summary)` (truthy, i.e. non-empty
  string) replace `summary`; clear `error`;
* `if (isInitialLoading) setIsInitialLoading(false);`
* `if (!shouldContinuePolling(status))` stop polling and clear the timer. -/
def deliverFetchOk (s : SessionState) (st : AssessmentStatus)
    (rawResults : Option RawResults) (summary : Option String) : SessionState :=
  if !s.isMounted then s
  else
    let s1 :=
      if commitOk s st then
        { s with
          status := some st
          lastStatusRef := some st
          results := if rawResults.isSome then normalizeResults rawResults else s.results
          summary := if strTruthy summary then summary else s.summary
          error := none }
      else s
    let s2 := if s1.isInitialLoading then { s1 with isInitialLoading := false } else s1
    if !(shouldContinuePolling (some st)) then
      { s2 with isPolling := false, pollTimerRef := none }
    else s2

/-- Error path of `fetchAssessmentStatus` (delivery of a rejected fetch with
`isNotFound` telling whether the response status was 404, and `message` the
human-readable message the source computes from
`detail || data.message || e.message || fallback`):

* `if (!isMountedRef.current) return;`
* 404 branch: force `status`/`lastStatusRef` to `not_found`, stop polling,
  clear the timer, end initial loading, return;
* otherwise `setError(message)` and end initial loading; `status`,
  `lastStatusRef`, `results`, `summary` are untouched. -/
def deliverFetchErr (s : SessionState) (isNotFound : Bool)
    (message : String) : SessionState :=
  if !s.isMounted then s
  else if isNotFound then
    let s1 := { s with
                status := some .not_found
                lastStatusRef := some .not_found
                isPolling := false
                pollTimerRef := none }
    if s1.isInitialLoading then { s1 with isInitialLoading := false } else s1
  else
    let s1 := { s with error := some message }
    if s1.isInitialLoading then { s1 with isInitialLoading := false } else s1

/-- Scheduling effects a call to `startPolling` performs besides state
updates: whether a status fetch is dispatched right away (before any timer
tick), and the interval (in ms) of a newly armed repeating timer, if any. -/
structure SchedulerAction where
  immediateFetch : Bool
  armedInterval : Option Nat
deriving DecidableEq, Repr

/-- `startPolling` of the page source: `if (pollTimerRef.current !== null)
return;` then `setIsPolling(true)` and `pollTimerRef.current =
window.setInterval(async () => { await fetchAssessmentStatus(); },
POLL_INTERVAL_MS)`. The body contains no call to `fetchAssessmentStatus`
outside the interval callback, so no fetch is dispatched before the first
tick: `immediateFetch` is `false` on the arming path. `newTimerId` is the
fresh handle returned by `setInterval`. -/
def startPolling (s : SessionState) (newTimerId : Nat) :
    SessionState × SchedulerAction :=
  if s.pollTimerRef.isSome then
    (s, { immediateFetch := false, armedInterval := none })
  else
    ({ s with isPolling := true, pollTimerRef := some newTimerId },
     { immediateFetch := false, armedInterval := some POLL_INTERVAL_MS })

/-- `stopPolling` of the page source. -/
def stopPolling (s : SessionState) : SessionState :=
  { s with isPolling := false, pollTimerRef := none }

/-- The `useEffect` cleanup on unmount: `isMountedRef.current = false;
stopPolling();`. -/
def detach (s : SessionState) : SessionState :=
  stopPolling { s with isMounted := false }

/-- Folding a sequence of delivered successful fetches over the session
state. -/
def deliverOkSeq (s : SessionState) :
    List (AssessmentStatus × Option RawResults × Option String) → SessionState
  | [] => s
  | (st, raw, sum) :: rest => deliverOkSeq (deliverFetchOk s st raw sum) rest

/-! ### Concrete fixtures used by counterexamples and witnesses -/

/-- A fully populated raw side entry. -/
def sideFull : SideAssessment :=
  { pickup_image := some "p.jpg"
    return_image := some "r.jpg"
    annotated_return_image := some "a.jpg" }

/-- A raw side entry whose annotated return image is the empty string. -/
def annotatedEmptySide : SideAssessment :=
  { pickup_image := some "p.jpg"
    return_image := some "r.jpg"
    annotated_return_image := some "" }

/-- A raw side entry missing its pickup image reference. -/
def missingPickupSide : SideAssessment :=
  { pickup_image := none
    return_image := some "r.jpg"
    annotated_return_image := none }

/-- A session mid-polling: `pending` already committed, first load over. -/
def steadyPending : SessionState :=
  { initialState with
    status := some .pending
    lastStatusRef := some .pending
    isInitialLoading := false
    isPolling := true
    pollTimerRef := some 1 }

/-- A session like `steadyPending` with a recorded error banner. -/
def erroredPending : SessionState :=
  { steadyPending with error := some "boom" }

/-- A session that has committed the terminal `complete` status. -/
def completedState : SessionState :=
  { initialState with
    status := some .complete
    lastStatusRef := some .complete
    isInitialLoading := false
    isPolling := false
    pollTimerRef := none
    results := [("front", { pickupUrl := some "p.jpg", resultUrl := some "a.jpg" })]
    summary := some "Minor damage detected." }

/-! ### Helper lemmas -/

/-- When the delivered status equals `lastStatusRef` and the first load is
over, the commit block of `deliverFetchOk` is skipped, so `results`,
`summary`, `isMounted`, `isInitialLoading` and `lastStatusRef` are all
preserved. -/
theorem deliverFetchOk_noCommit (s : SessionState) (st : AssessmentStatus)
    (raw : Option RawResults) (sum : Option String)
    (hm : s.isMounted = true) (hi : s.isInitialLoading = false)
    (hst : some st = s.lastStatusRef) :
    (deliverFetchOk s st raw sum).results = s.results
    ∧ (deliverFetchOk s st raw sum).summary = s.summary
    ∧ (deliverFetchOk s st raw sum).isMounted = true
    ∧ (deliverFetchOk s st raw sum).isInitialLoading = false
    ∧ (deliverFetchOk s st raw sum).lastStatusRef = s.lastStatusRef := by
  have hc : commitOk s st = false := by
    simp [commitOk, ← hst, hi]
  simp only [deliverFetchOk, hm, hc, hi, Bool.not_true, Bool.false_eq_true,
    if_false]
  split <;> simp [hm, hi]

/-! ### C5 — annotated-vs-return preference -/

/-- C5 counterexample: with `annotated_return_image = ""` (present but
empty), the normalizer keeps the empty string as `resultUrl` — it does NOT
fall back to `return_image = "r.jpg"` as the claim states, because
JavaScript's `??` treats only nullish values as absent. -/
theorem empty_annotated_does_not_fall_back :
    normalizeResults (some [("front", some annotatedEmptySide)]) =
      [("front", { pickupUrl := some "p.jpg", resultUrl := some "" })]
    ∧ annotatedEmptySide.return_image = some "r.jpg" := by
  constructor <;> rfl

/-- C5 amended: for every present side entry, `pickupUrl` is the raw
`pickup_image` and `resultUrl` is `annotated_return_image` whenever that
field is present — even when it is the empty string — and only an absent
(nullish) `annotated_return_image` falls back to `return_image`. -/
theorem comparisonImage_prefers_present_annotated
    (side p r : String) (ann : Option String) (rest : RawResults) :
    normalizeResults (some ((side,
        some { pickup_image := some p, return_image := some r,
               annotated_return_image := ann }) :: rest)) =
      (side, { pickupUrl := some p,
               resultUrl := if ann.isSome then ann else some r })
        :: normalizeResults (some rest) := by
  cases ann <;> simp [normalizeResults, normalizeSide]

/-! ### C9 — omission of sides -/

/-- C9 counterexample: a side entry that is present but missing its pickup
image reference is NOT omitted — the normalizer emits a partial entry with
an absent `pickupUrl`, contradicting the claim that such sides are dropped
entirely. -/
theorem missing_pickup_side_not_omitted :
    normalizeResults (some [("front", some missingPickupSide)]) =
      [("front", { pickupUrl := none, resultUrl := some "r.jpg" })] := by
  rfl

/-- C9 amended: a side is omitted from the normalizer's output exactly when
its entry is nullish; every present entry — even one missing its pickup or
return reference — contributes its side key, with missing references
propagated as absent values (no error is raised). -/
theorem side_omitted_iff_entry_nullish (res : RawResults) :
    (normalizeResults (some res)).map Prod.fst =
      (res.filter fun p => p.2.isSome).map Prod.fst := by
  induction res with
  | nil => rfl
  | cons hd tl ih =>
    obtain ⟨side, entry⟩ := hd
    cases entry <;> simp [normalizeResults, normalizeSide, List.filter] at ih ⊢ <;>
      exact ih

/-! ### C2 — immediate poll on start -/

/-- C2: on a fresh session (no timer armed), `startPolling` arms a repeating
5000 ms timer and raises the polling flag, but dispatches NO immediate
status fetch — the first fetch only happens at the first interval tick,
contradicting the claim (and the function's own documentation). -/
theorem startPolling_no_immediate_fetch :
    (startPolling initialState 1).2.immediateFetch = false
    ∧ (startPolling initialState 1).2.armedInterval = some POLL_INTERVAL_MS
    ∧ (startPolling initialState 1).1.isPolling = true
    ∧ (startPolling initialState 1).1.pollTimerRef = some 1 := by
  refine ⟨rfl, rfl, rfl, rfl⟩

/-! ### C1 — payload handling on `FetchOk` -/

/-- C1 counterexample: a `FetchOk` whose status equals the current committed
status (first load over) carries a non-empty raw result map and a non-empty
summary, yet neither is stored — the whole payload-handling block is inside
the status-changed-or-first-load branch, contradicting "regardless of
whether the fetched status differs". -/
theorem fetchOk_unchanged_status_drops_payload :
    (deliverFetchOk steadyPending .pending
        (some [("front", some sideFull)]) (some "Minor damage")).results = []
    ∧ (deliverFetchOk steadyPending .pending
        (some [("front", some sideFull)]) (some "Minor damage")).summary = none
    ∧ normalizeResults (some [("front", some sideFull)]) =
        [("front", { pickupUrl := some "p.jpg", resultUrl := some "a.jpg" })] := by
  refine ⟨rfl, rfl, rfl⟩

/-- C1 amended: `results` and `summary` are stored only by a `FetchOk` whose
status differs from the current one or which occurs during the first load
(and then a non-null raw map replaces `results` wholesale rather than being
merged); consequently, across any sequence of delivered `FetchOk` outcomes
whose status equals the committed one (after the first load), `results` and
`summary` are exactly unchanged — in particular never cleared. -/
theorem fetchOk_seq_unchanged_status_preserves_results_summary
    (s : SessionState)
    (l : List (AssessmentStatus × Option RawResults × Option String))
    (hm : s.isMounted = true) (hi : s.isInitialLoading = false)
    (hall : ∀ x ∈ l, some x.1 = s.lastStatusRef) :
    (deliverOkSeq s l).results = s.results
    ∧ (deliverOkSeq s l).summary = s.summary := by
  induction l generalizing s with
  | nil => exact ⟨rfl, rfl⟩
  | cons x rest ih =>
    obtain ⟨st, raw, sum⟩ := x
    have hx : some st = s.lastStatusRef := hall _ (List.mem_cons_self _ _)
    have h1 := deliverFetchOk_noCommit s st raw sum hm hi hx
    have h2 := ih (deliverFetchOk s st raw sum) h1.2.2.1 h1.2.2.2.1 ?_
    · simp only [deliverOkSeq] at h2 ⊢
      exact ⟨h2.1.trans h1.1, h2.2.trans h1.2.1⟩
    · intro y hy
      rw [h1.2.2.2.2]
      exact hall y (List.mem_cons_of_mem _ hy)

/-- C1 witness: two further `pending` fetches delivered to a session already
showing `pending` — one carrying a full payload, one empty — leave `results`
and `summary` untouched. -/
theorem fetchOk_seq_unchanged_status_witness :
    (deliverOkSeq steadyPending
        [(.pending, some [("front", some sideFull)], some "Minor damage"),
         (.pending, none, none)]).results = steadyPending.results
    ∧ (deliverOkSeq steadyPending
        [(.pending, some [("front", some sideFull)], some "Minor damage"),
         (.pending, none, none)]).summary = steadyPending.summary :=
  fetchOk_seq_unchanged_status_preserves_results_summary steadyPending _
    rfl rfl (by intro x hx; fin_cases hx <;> rfl)

/-! ### C3 — absorption of terminal states -/

/-- C3 counterexample: with terminal `complete` committed, a subsequently
delivered `FetchOk` carrying `in_progress` still changes the committed
status (the reducer only compares against `lastStatusRef`; nothing guards
terminal states), so terminal states are not absorbing. -/
theorem terminal_status_overwritten_by_stale_fetchOk :
    (deliverFetchOk completedState .in_progress none none).status =
      some .in_progress
    ∧ (deliverFetchOk completedState .in_progress none none).lastStatusRef =
      some .in_progress := by
  refine ⟨rfl, rfl⟩

/-- C3 amended: no delivered fetch outcome — success or error — ever re-arms
polling: the polling flag and the timer handle can only be cleared by a
delivery, never set; a stale `FetchOk` with a different status can, however,
still change the committed status (see the counterexample). -/
theorem fetch_outcomes_never_rearm_polling (s : SessionState)
    (st : AssessmentStatus) (raw : Option RawResults) (sum : Option String)
    (b : Bool) (msg : String) :
    ((deliverFetchOk s st raw sum).isPolling ≤ s.isPolling)
    ∧ ((deliverFetchOk s st raw sum).pollTimerRef.isSome ≤ s.pollTimerRef.isSome)
    ∧ ((deliverFetchErr s b msg).isPolling ≤ s.isPolling)
    ∧ ((deliverFetchErr s b msg).pollTimerRef.isSome ≤ s.pollTimerRef.isSome) := by
  simp only [deliverFetchOk, deliverFetchErr]
  refine ⟨?_, ?_, ?_, ?_⟩ <;> (repeat' split) <;> simp

/-! ### C4 — clearing of `lastError` on `FetchOk` -/

/-- C4 counterexample: a `FetchOk` whose status equals the committed one
(first load over) does NOT clear a previously recorded error — the
`setError(null)` sits inside the status-changed-or-first-load branch. -/
theorem fetchOk_unchanged_status_keeps_error :
    (deliverFetchOk erroredPending .pending none none).error = some "boom" := by
  rfl

/-- C4 amended: a delivered `FetchOk` clears the recorded error exactly when
the fetched status differs from the committed one or the session is in its
first load; otherwise the error is preserved. -/
theorem fetchOk_error_cleared_iff_commit (s : SessionState)
    (st : AssessmentStatus) (raw : Option RawResults) (sum : Option String)
    (hm : s.isMounted = true) :
    (deliverFetchOk s st raw sum).error =
      (if commitOk s st then none else s.error) := by
  unfold deliverFetchOk
  simp only [hm, Bool.not_true, Bool.false_eq_true, if_false]
  repeat' split <;> simp_all

/-- C4 witness: a changed-status `FetchOk` delivered to a session carrying
an error banner clears it. -/
theorem fetchOk_error_cleared_iff_commit_witness :
    (deliverFetchOk erroredPending .complete none none).error =
      (if commitOk erroredPending .complete then none else erroredPending.error) :=
  fetchOk_error_cleared_iff_commit erroredPending .complete none none rfl

/-- A session actively polling with `in_progress` committed. -/
def inProgressPolling : SessionState :=
  { initialState with
    status := some .in_progress
    lastStatusRef := some .in_progress
    isInitialLoading := false
    isPolling := true
    pollTimerRef := some 2 }

/-- A polling session with populated results, summary and error banner. -/
def richErroredState : SessionState :=
  { steadyPending with
    results := [("rear", { pickupUrl := some "p2.jpg", resultUrl := some "r2.jpg" })]
    summary := some "Scratch on rear."
    error := some "timeout" }

/-! ### C6 — 404 forces terminal `not_found` -/

/-- C6: a delivered fetch error with `isNotFound = true` unconditionally
forces the committed status to terminal `not_found` (regardless of the prior
status and with no only-if-differs check), clears the polling flag and
disarms the timer. -/
theorem notFound_error_forces_terminal (s : SessionState) (msg : String)
    (hm : s.isMounted = true) :
    (deliverFetchErr s true msg).status = some .not_found
    ∧ (deliverFetchErr s true msg).lastStatusRef = some .not_found
    ∧ (deliverFetchErr s true msg).isPolling = false
    ∧ (deliverFetchErr s true msg).pollTimerRef = none := by
  simp only [deliverFetchErr, hm, Bool.not_true, Bool.false_eq_true, if_false,
    if_true]
  split <;> simp

/-- C6 witness: a 404 delivered to an actively polling `in_progress` session
lands in `not_found` with polling halted. -/
theorem notFound_error_forces_terminal_witness :
    (deliverFetchErr inProgressPolling true "Request failed with status code 404").status = some .not_found
    ∧ (deliverFetchErr inProgressPolling true "Request failed with status code 404").lastStatusRef = some .not_found
    ∧ (deliverFetchErr inProgressPolling true "Request failed with status code 404").isPolling = false
    ∧ (deliverFetchErr inProgressPolling true "Request failed with status code 404").pollTimerRef = none :=
  notFound_error_forces_terminal inProgressPolling
    "Request failed with status code 404" rfl

/-! ### C7 — transient errors preserve the status -/

/-- C7: a delivered fetch error with `isNotFound = false` leaves the
committed status (both the displayed `status` and `lastStatusRef`)
unchanged — the display never regresses from a known status — and records
the error's human-readable message in `lastError`. -/
theorem transient_error_preserves_status_sets_message (s : SessionState)
    (msg : String) (hm : s.isMounted = true) :
    (deliverFetchErr s false msg).status = s.status
    ∧ (deliverFetchErr s false msg).lastStatusRef = s.lastStatusRef
    ∧ (deliverFetchErr s false msg).error = some msg := by
  simp only [deliverFetchErr, hm, Bool.not_true, Bool.false_eq_true, if_false,
    if_true]
  split <;> simp

/-- C7 witness: a network error delivered to a `pending` session keeps the
status and records the message. -/
theorem transient_error_preserves_status_witness :
    (deliverFetchErr steadyPending false "Network Error").status = steadyPending.status
    ∧ (deliverFetchErr steadyPending false "Network Error").lastStatusRef = steadyPending.lastStatusRef
    ∧ (deliverFetchErr steadyPending false "Network Error").error = some "Network Error" :=
  transient_error_preserves_status_sets_message steadyPending "Network Error" rfl

/-! ### C8 — no mutation after detachment -/

/-- C8: after the consumer detaches, every delivered fetch outcome — success
or error, including one whose request was in flight at detachment — leaves
the session state completely unchanged, and detachment itself disarms the
timer and clears the polling flag so no further cycles fire. -/
theorem detached_outcomes_do_not_mutate (s : SessionState)
    (st : AssessmentStatus) (raw : Option RawResults) (sum : Option String)
    (b : Bool) (msg : String) :
    deliverFetchOk (detach s) st raw sum = detach s
    ∧ deliverFetchErr (detach s) b msg = detach s
    ∧ (detach s).pollTimerRef = none
    ∧ (detach s).isPolling = false
    ∧ (detach s).isMounted = false := by
  refine ⟨?_, ?_, rfl, rfl, rfl⟩ <;>
    simp [deliverFetchOk, deliverFetchErr, detach, stopPolling]

/-! ### C10 — frame of the 404 transition -/

/-- C10: the 404 branch changes only the committed status (to `not_found`),
the polling flag, the timer handle and the initial-loading flag; previously
fetched `results` and `summary` are retained and a previously displayed
error message is not cleared. -/
theorem notFound_transition_frame (s : SessionState) (msg : String)
    (hm : s.isMounted = true) :
    (deliverFetchErr s true msg).results = s.results
    ∧ (deliverFetchErr s true msg).summary = s.summary
    ∧ (deliverFetchErr s true msg).error = s.error
    ∧ (deliverFetchErr s true msg).isMounted = true
    ∧ (deliverFetchErr s true msg).status = some .not_found
    ∧ (deliverFetchErr s true msg).isPolling = false
    ∧ (deliverFetchErr s true msg).pollTimerRef = none
    ∧ (deliverFetchErr s true msg).isInitialLoading = false := by
  simp only [deliverFetchErr, hm, Bool.not_true, Bool.false_eq_true, if_false,
    if_true]
  split <;> simp_all

/-- C10 witness: a 404 delivered to a session holding results, a summary and
an error banner keeps all three while committing `not_found`. -/
theorem notFound_transition_frame_witness :
    (deliverFetchErr richErroredState true "gone").results = richErroredState.results
    ∧ (deliverFetchErr richErroredState true "gone").summary = richErroredState.summary
    ∧ (deliverFetchErr richErroredState true "gone").error = richErroredState.error
    ∧ (deliverFetchErr richErroredState true "gone").isMounted = true
    ∧ (deliverFetchErr richErroredState true "gone").status = some .not_found
    ∧ (deliverFetchErr richErroredState true "gone").isPolling = false
    ∧ (deliverFetchErr richErroredState true "gone").pollTimerRef = none
    ∧ (deliverFetchErr richErroredState true "gone").isInitialLoading = false :=
  notFound_transition_frame richErroredState "gone" rfl
